import Mathlib

/-!
Verification of the PVR input-stream bridge (`CInputStreamPVRBase`,
`xbmc/cores/VideoPlayer/DVDInputStreams/InputStreamPVRBase.cpp`).

The development shallowly embeds the bridge: the backend add-on
(`CPVRClient`) is a record of response functions, machine integers are
`Int`/`Nat`, the `std::map<int, std::shared_ptr<CDemuxStream>>` stream map
is a function `Int → Option DemuxStream`, and `shared_ptr` object identity
is tracked by a `tag : Nat` carried by every descriptor: reusing an
existing descriptor keeps its tag, constructing a fresh one takes the next
value of an allocation counter threaded through the rebuild.
-/

namespace PVRBridge

/-- Codec categories reported for a backend elementary stream
(`PVR_CODEC_TYPE` of the PVR add-on interface). -/
inductive CodecType where
  | unknown
  | video
  | audio
  | data
  | subtitle
  | rds
  | id3
deriving DecidableEq

/-- One entry of the stream-properties snapshot
(`PVR_STREAM_PROPERTIES::PVR_STREAM`). `fAspect` is a `float` in the
source; the rebuild only copies the value, so it is modelled by the raw
value (its numeric interpretation is irrelevant to every operation here).
`iSubtitleInfo` is a 32-bit unsigned word. -/
structure PVRStream where
  iPID : Int := 0
  iCodecType : CodecType := CodecType.unknown
  iCodecId : Int := 0
  iChannels : Int := 0
  iSampleRate : Int := 0
  iBlockAlign : Int := 0
  iBitRate : Int := 0
  iBitsPerSample : Int := 0
  iFPSScale : Int := 0
  iFPSRate : Int := 0
  iHeight : Int := 0
  iWidth : Int := 0
  fAspect : Int := 0
  iSubtitleInfo : Nat := 0
  strLanguage : String := ""
deriving DecidableEq

/-- Modelled from the spec: the dynamic subtype of a typed stream
descriptor, i.e. which concrete `CDemuxStream` subclass the object is
(`CDemuxStream` itself being `generic`). The subclass definitions
(`DVDDemux.h`) are outside the excerpt; per the spec each dedicated
subtype is a direct subclass of the generic base, and the
`dynamic_pointer_cast` to a subtype succeeds exactly when the object
already has that subtype. -/
inductive StreamSubtype where
  | generic
  | audio
  | video
  | subtitle
  | teletext
  | radioRDS
  | audioID3
deriving DecidableEq

/-- A typed stream descriptor (`CDemuxStream` and its subclasses,
flattened into one record tagged by `subtype`). `tag` is the model-level
object identity of the `shared_ptr` target: mutation in place preserves
it, fresh construction allocates a new one. `extraData` — modelled from
the spec: the optional extra-data block (`FFmpegExtraData`, defined
outside the excerpt) as a byte list; a freshly constructed descriptor
carries none. Numeric fields default to zero as in a fresh descriptor. -/
structure DemuxStream where
  tag : Nat
  subtype : StreamSubtype
  codec : Int := 0
  uniqueId : Int := 0
  language : String := ""
  extraData : Option (List Nat) := none
  iChannels : Int := 0
  iSampleRate : Int := 0
  iBlockAlign : Int := 0
  iBitRate : Int := 0
  iBitsPerSample : Int := 0
  iFpsScale : Int := 0
  iFpsRate : Int := 0
  iHeight : Int := 0
  iWidth : Int := 0
  fAspect : Int := 0
deriving DecidableEq

/-- The stream map `m_streamMap : std::map<int, std::shared_ptr<CDemuxStream>>`. -/
abbrev StreamMap := Int → Option DemuxStream

/-- A demux packet, `DemuxPacket`. Modelled from the spec: the packet
carries a numeric stream id plus opaque payload; the definition
(`DemuxPacket.h`) is outside the excerpt and only the id is inspected. -/
structure DemuxPacket where
  iStreamId : Int := 0
  payload : List Nat := []
deriving DecidableEq

/-- Modelled from the spec: the "stream info" sentinel stream id
(`DMX_SPECIALID_STREAMINFO`, player interface header outside the
excerpt); the bridge only compares against it. -/
def DMX_SPECIALID_STREAMINFO : Int := -10

/-- Modelled from the spec: the "stream change" sentinel stream id
(`DMX_SPECIALID_STREAMCHANGE`); distinct from the stream-info sentinel. -/
def DMX_SPECIALID_STREAMCHANGE : Int := -11

/-- Modelled from the spec: the sentinel `whence` value probing seek
capability (`DVDSTREAM_SEEK_POSSIBLE`, input-stream header outside the
excerpt). -/
def DVDSTREAM_SEEK_POSSIBLE : Int := 16

/-- The ffmpeg codec identifier `AV_CODEC_ID_DVB_TELETEXT`; the bridge
only compares `iCodecId` against it. -/
def AV_CODEC_ID_DVB_TELETEXT : Int := 94215

/-- The backend add-on (`CPVRClient`), modelled as its responses to the
calls the bridge issues. `GetStreamReadChunkSize` takes its `int&`
argument and yields the value left in it; `SeekTime` yields the
`PVR_ERROR` code (`PVR_ERROR_NO_ERROR = 0`); `DemuxRead` yields the next
packet or null; `GetStreamProperties` fills the snapshot with
`streamProps`. -/
structure PVRClient where
  readChunkSize : Int → Int := fun r => r
  seekTimeError : Int → Bool → Int := fun _ _ => 0
  demuxPacket : Option DemuxPacket := none
  streamProps : List PVRStream := []

/-- The demux-side state of the bridge: the stream-properties snapshot
(`m_StreamProps`, as the list of its first `iStreamCount` entries), the
stream map (`m_streamMap`) and the model-level tag-allocation counter. -/
structure BridgeState where
  props : List PVRStream := []
  streamMap : StreamMap := fun _ => none
  nextTag : Nat := 0

/-- `CInputStreamPVRBase::Read`, parameterized by the value returned by
the virtual `ReadPVRStream` backend call. Yields the returned byte count
and the new `m_eof`. -/
def Read (backendRet : Int) (eof : Bool) : Int × Bool :=
  if backendRet = 0 then (backendRet, true)
  else if backendRet < -1 then (-1, eof)
  else (backendRet, eof)

/-- Outcome of `CInputStreamPVRBase::Seek`: return value, new `m_eof`,
and whether the virtual backend seek (`SeekPVRStream`) was invoked. -/
structure SeekOutcome where
  ret : Int
  eof : Bool
  invokedBackendSeek : Bool
deriving DecidableEq

/-- `CInputStreamPVRBase::Seek`, parameterized by the backend
capability answer (`CanSeek`) and the virtual backend seek function. -/
def Seek (canSeek : Bool) (backendSeek : Int → Int → Int) (eof : Bool)
    (offset whence : Int) : SeekOutcome :=
  if whence = DVDSTREAM_SEEK_POSSIBLE then
    { ret := if canSeek then 1 else 0, eof := eof, invokedBackendSeek := false }
  else
    { ret := backendSeek offset whence,
      eof := if backendSeek offset whence ≥ 0 then false else eof,
      invokedBackendSeek := true }

/-- `CInputStreamPVRBase::GetBlockSize`: `ret = -1`, overwritten by the
client call only when a client is present. -/
def GetBlockSize (client : Option PVRClient) : Int :=
  match client with
  | none => -1
  | some c => c.readChunkSize (-1)

/-- `CInputStreamPVRBase::SeekTime`: true iff a client is present and it
answers `PVR_ERROR_NO_ERROR` (the `startpts` out-parameter is written by
the client and not inspected by the bridge). Times are modelled as
integers; no property here depends on their arithmetic. -/
def SeekTime (client : Option PVRClient) (timems : Int) (backwards : Bool) : Bool :=
  match client with
  | none => false
  | some c => c.seekTimeError timems backwards = 0

/-- Byte 0 of the decoded subtitle-info word: `(iSubtitleInfo >> 8) & 0xff`. -/
def subByte0 (w : Nat) : Nat := (w >>> 8) &&& 0xff

/-- Byte 1 of the decoded subtitle-info word: `(iSubtitleInfo >> 0) & 0xff`. -/
def subByte1 (w : Nat) : Nat := (w >>> 0) &&& 0xff

/-- Byte 2 of the decoded subtitle-info word: `(iSubtitleInfo >> 24) & 0xff`. -/
def subByte2 (w : Nat) : Nat := (w >>> 24) &&& 0xff

/-- Byte 3 of the decoded subtitle-info word: `(iSubtitleInfo >> 16) & 0xff`. -/
def subByte3 (w : Nat) : Nat := (w >>> 16) &&& 0xff

/-- A freshly constructed descriptor of the given subtype
(`std::make_shared<CDemuxStream...>()`), carrying the next allocation
tag; all payload fields are defaults. -/
def freshStream (sub : StreamSubtype) (t : Nat) : DemuxStream :=
  { tag := t, subtype := sub }

/-- The reuse-or-reconstruct step of one rebuild branch: the
`dynamic_pointer_cast` of the previously mapped descriptor to the branch
subtype, falling back to fresh construction when there is no previous
descriptor or the cast fails. Yields the chosen descriptor and the new
allocation counter. -/
def reuseOrFresh (target : StreamSubtype) (old : Option DemuxStream) (t : Nat) :
    DemuxStream × Nat :=
  match old with
  | some o => if o.subtype = target then (o, t) else (freshStream target t, t + 1)
  | none => (freshStream target t, t + 1)

/-- `CInputStreamPVRBase::GetStreamInternal`: point lookup in the stream map. -/
def GetStreamInternal (m : StreamMap) (iStreamId : Int) : Option DemuxStream :=
  m iStreamId

/-- `CInputStreamPVRBase::GetStream`: point lookup in the stream map. -/
def GetStream (m : StreamMap) (iStreamId : Int) : Option DemuxStream :=
  m iStreamId

/-- Final unconditional assignments of one rebuild iteration:
`dStream->codec`, `dStream->uniqueId`, `dStream->language`. -/
def finishStream (s : PVRStream) (d : DemuxStream) : DemuxStream :=
  { d with codec := s.iCodecId, uniqueId := s.iPID, language := s.strLanguage }

/-- One iteration of the `UpdateStreamMap` loop body for snapshot entry
`s`: category dispatch, reuse-or-reconstruct, category-specific field
population, then the unconditional final assignments. `rdsEnabled` is
the settings flag `pvrplayback.enableradiords`. Yields the descriptor
stored under `s.iPID` and the new allocation counter. -/
def UpdateStreamEntry (rdsEnabled : Bool) (old : StreamMap) (t : Nat) (s : PVRStream) :
    DemuxStream × Nat :=
  if s.iCodecType = CodecType.audio then
    let r := reuseOrFresh StreamSubtype.audio (GetStreamInternal old s.iPID) t
    (finishStream s { r.1 with
        iChannels := s.iChannels, iSampleRate := s.iSampleRate,
        iBlockAlign := s.iBlockAlign, iBitRate := s.iBitRate,
        iBitsPerSample := s.iBitsPerSample }, r.2)
  else if s.iCodecType = CodecType.video then
    let r := reuseOrFresh StreamSubtype.video (GetStreamInternal old s.iPID) t
    (finishStream s { r.1 with
        iFpsScale := s.iFPSScale, iFpsRate := s.iFPSRate,
        iHeight := s.iHeight, iWidth := s.iWidth, fAspect := s.fAspect }, r.2)
  else if s.iCodecId = AV_CODEC_ID_DVB_TELETEXT then
    let r := reuseOrFresh StreamSubtype.teletext (GetStreamInternal old s.iPID) t
    (finishStream s r.1, r.2)
  else if s.iCodecType = CodecType.subtitle then
    let r := reuseOrFresh StreamSubtype.subtitle (GetStreamInternal old s.iPID) t
    (finishStream s
      (if s.iSubtitleInfo ≠ 0 then
        { r.1 with extraData := some [subByte0 s.iSubtitleInfo,
            subByte1 s.iSubtitleInfo, subByte2 s.iSubtitleInfo,
            subByte3 s.iSubtitleInfo] }
      else r.1), r.2)
  else if s.iCodecType = CodecType.rds ∧ rdsEnabled = true then
    let r := reuseOrFresh StreamSubtype.radioRDS (GetStreamInternal old s.iPID) t
    (finishStream s r.1, r.2)
  else if s.iCodecType = CodecType.id3 then
    let r := reuseOrFresh StreamSubtype.audioID3 (GetStreamInternal old s.iPID) t
    (finishStream s r.1, r.2)
  else
    (finishStream s (freshStream StreamSubtype.generic t), t + 1)

/-- `newStreamMap[pid] = d`: insertion (overwrite) into the replacement map. -/
def mapInsert (m : StreamMap) (pid : Int) (d : DemuxStream) : StreamMap :=
  fun i => if i = pid then some d else m i

/-- The `UpdateStreamMap` loop over the remaining snapshot entries:
`old` is `m_streamMap` (all lookups go to it), `acc` the replacement map
built so far. Yields the finished replacement map and allocation
counter. -/
def UpdateStreamMapFrom (rdsEnabled : Bool) (old : StreamMap) :
    List PVRStream → StreamMap → Nat → StreamMap × Nat
  | [], acc, t => (acc, t)
  | s :: rest, acc, t =>
      UpdateStreamMapFrom rdsEnabled old rest
        (mapInsert acc s.iPID (UpdateStreamEntry rdsEnabled old t s).1)
        (UpdateStreamEntry rdsEnabled old t s).2

/-- `CInputStreamPVRBase::UpdateStreamMap`: rebuild the replacement map
from the snapshot entries (bounded by the reported count, i.e. the
entries of `props`), then swap it in. Yields the new `m_streamMap` and
allocation counter. -/
def UpdateStreamMap (rdsEnabled : Bool) (props : List PVRStream) (old : StreamMap)
    (t : Nat) : StreamMap × Nat :=
  UpdateStreamMapFrom rdsEnabled old props (fun _ => none) t

/-- `CInputStreamPVRBase::OpenDemux`: with a client, query the snapshot
and rebuild the map; without one, fail. -/
def OpenDemux (client : Option PVRClient) (rdsEnabled : Bool) (st : BridgeState) :
    Bool × BridgeState :=
  match client with
  | none => (false, st)
  | some c =>
      (true,
        { props := c.streamProps,
          streamMap := (UpdateStreamMap rdsEnabled c.streamProps st.streamMap st.nextTag).1,
          nextTag := (UpdateStreamMap rdsEnabled c.streamProps st.streamMap st.nextTag).2 })

/-- `CInputStreamPVRBase::ReadDemux`: pull one packet; on the
stream-info sentinel re-query properties only, on the stream-change
sentinel re-query properties and rebuild the map; return the packet
(or null) in every case. -/
def ReadDemux (client : Option PVRClient) (rdsEnabled : Bool) (st : BridgeState) :
    Option DemuxPacket × BridgeState :=
  match client with
  | none => (none, st)
  | some c =>
    match c.demuxPacket with
    | none => (none, st)
    | some p =>
      if p.iStreamId = DMX_SPECIALID_STREAMINFO then
        (some p, { st with props := c.streamProps })
      else if p.iStreamId = DMX_SPECIALID_STREAMCHANGE then
        (some p,
          { props := c.streamProps,
            streamMap := (UpdateStreamMap rdsEnabled c.streamProps st.streamMap st.nextTag).1,
            nextTag := (UpdateStreamMap rdsEnabled c.streamProps st.streamMap st.nextTag).2 })
      else
        (some p, st)

/-- The subtype that the `UpdateStreamMap` dispatch assigns to a
snapshot entry (the branch that handles it), as a function of the entry
and the RDS settings flag. -/
def subtypeFor (rdsEnabled : Bool) (s : PVRStream) : StreamSubtype :=
  if s.iCodecType = CodecType.audio then StreamSubtype.audio
  else if s.iCodecType = CodecType.video then StreamSubtype.video
  else if s.iCodecId = AV_CODEC_ID_DVB_TELETEXT then StreamSubtype.teletext
  else if s.iCodecType = CodecType.subtitle then StreamSubtype.subtitle
  else if s.iCodecType = CodecType.rds ∧ rdsEnabled = true then StreamSubtype.radioRDS
  else if s.iCodecType = CodecType.id3 then StreamSubtype.audioID3
  else StreamSubtype.generic

/-- The descriptor chosen by `reuseOrFresh` always has the target subtype. -/
theorem reuseOrFresh_subtype (target : StreamSubtype) (old : Option DemuxStream) (t : Nat) :
    (reuseOrFresh target old t).1.subtype = target := by
  cases old with
  | none => rfl
  | some o =>
      by_cases h : o.subtype = target
      · simp [reuseOrFresh, h]
      · simp [reuseOrFresh, h, freshStream]

/-- When the previously mapped descriptor has the target subtype,
`reuseOrFresh` keeps the very same descriptor identity. -/
theorem reuseOrFresh_tag_of_match (target : StreamSubtype) (o : DemuxStream) (t : Nat)
    (hs : o.subtype = target) : (reuseOrFresh target (some o) t).1.tag = o.tag := by
  simp [reuseOrFresh, hs]

/-- `reuseOrFresh` never touches the extra-data: a reused matching
descriptor keeps its block, a fresh one has none. -/
theorem reuseOrFresh_extraData (target : StreamSubtype) (old : Option DemuxStream) (t : Nat) :
    (reuseOrFresh target old t).1.extraData =
      (match old with
        | some o => if o.subtype = target then o.extraData else none
        | none => none) := by
  cases old with
  | none => rfl
  | some o =>
      by_cases h : o.subtype = target
      · simp [reuseOrFresh, h]
      · simp [reuseOrFresh, h, freshStream]

/-- The rebuild iteration assigns each entry the subtype computed by the
dispatch function `subtypeFor`. -/
theorem UpdateStreamEntry_subtype (rdsEnabled : Bool) (old : StreamMap) (t : Nat)
    (s : PVRStream) :
    (UpdateStreamEntry rdsEnabled old t s).1.subtype = subtypeFor rdsEnabled s := by
  unfold UpdateStreamEntry subtypeFor
  split_ifs <;> simp [finishStream, reuseOrFresh_subtype, freshStream]

/-- The rebuild iteration always stamps the entry's PID as the
descriptor's unique id. -/
theorem UpdateStreamEntry_uniqueId (rdsEnabled : Bool) (old : StreamMap) (t : Nat)
    (s : PVRStream) :
    (UpdateStreamEntry rdsEnabled old t s).1.uniqueId = s.iPID := by
  unfold UpdateStreamEntry
  split_ifs <;> simp [finishStream]

/-- On every dedicated-subtype branch (everything except the generic
fallback) the identity of the produced descriptor is the identity chosen
by `reuseOrFresh` at the dispatch subtype. -/
theorem UpdateStreamEntry_tag (rdsEnabled : Bool) (old : StreamMap) (t : Nat)
    (s : PVRStream) (hng : subtypeFor rdsEnabled s ≠ StreamSubtype.generic) :
    (UpdateStreamEntry rdsEnabled old t s).1.tag =
      (reuseOrFresh (subtypeFor rdsEnabled s) (GetStreamInternal old s.iPID) t).1.tag := by
  unfold UpdateStreamEntry
  split_ifs <;> simp_all [subtypeFor, finishStream]

/-- If the previously mapped descriptor for the entry's id already has
the dispatch subtype and that subtype is a dedicated one, the rebuild
iteration reuses the very same descriptor instance. -/
theorem UpdateStreamEntry_tag_reuse (rdsEnabled : Bool) (old : StreamMap) (t : Nat)
    (s : PVRStream) (o : DemuxStream) (ho : old s.iPID = some o)
    (hs : o.subtype = subtypeFor rdsEnabled s)
    (hng : subtypeFor rdsEnabled s ≠ StreamSubtype.generic) :
    (UpdateStreamEntry rdsEnabled old t s).1.tag = o.tag := by
  rw [UpdateStreamEntry_tag rdsEnabled old t s hng]
  simp only [GetStreamInternal]
  rw [ho]
  exact reuseOrFresh_tag_of_match _ o t hs

/-- Extra-data produced by the rebuild iteration on a subtitle-category,
non-teletext entry: the decoded 4-byte block when the info word is
nonzero, otherwise whatever block the chosen base descriptor already
carried (none for a fresh one). -/
theorem UpdateStreamEntry_subtitle_extra (rdsEnabled : Bool) (old : StreamMap) (t : Nat)
    (s : PVRStream) (hc : s.iCodecType = CodecType.subtitle)
    (hnt : s.iCodecId ≠ AV_CODEC_ID_DVB_TELETEXT) :
    (UpdateStreamEntry rdsEnabled old t s).1.extraData =
      (if s.iSubtitleInfo ≠ 0 then
        some [subByte0 s.iSubtitleInfo, subByte1 s.iSubtitleInfo,
          subByte2 s.iSubtitleInfo, subByte3 s.iSubtitleInfo]
      else
        match old s.iPID with
        | some o => if o.subtype = StreamSubtype.subtitle then o.extraData else none
        | none => none) := by
  unfold UpdateStreamEntry
  by_cases hi : s.iSubtitleInfo = 0
  · simp [hc, hnt, hi, finishStream, reuseOrFresh_extraData, GetStreamInternal]
  · simp [hc, hnt, hi, finishStream]

/-- Byte 0 of the decoded word is bits 15 to 8. -/
theorem subByte0_eq_mod (w : Nat) : subByte0 w = w / 2 ^ 8 % 2 ^ 8 := by
  show (w >>> 8) &&& (2 ^ 8 - 1) = w / 2 ^ 8 % 2 ^ 8
  rw [Nat.and_pow_two_sub_one_eq_mod, Nat.shiftRight_eq_div_pow]

/-- Byte 1 of the decoded word is bits 7 to 0. -/
theorem subByte1_eq_mod (w : Nat) : subByte1 w = w % 2 ^ 8 := by
  show (w >>> 0) &&& (2 ^ 8 - 1) = w % 2 ^ 8
  rw [Nat.and_pow_two_sub_one_eq_mod, Nat.shiftRight_zero]

/-- Byte 2 of the decoded word is bits 31 to 24. -/
theorem subByte2_eq_mod (w : Nat) : subByte2 w = w / 2 ^ 24 % 2 ^ 8 := by
  show (w >>> 24) &&& (2 ^ 8 - 1) = w / 2 ^ 24 % 2 ^ 8
  rw [Nat.and_pow_two_sub_one_eq_mod, Nat.shiftRight_eq_div_pow]

/-- Byte 3 of the decoded word is bits 23 to 16. -/
theorem subByte3_eq_mod (w : Nat) : subByte3 w = w / 2 ^ 16 % 2 ^ 8 := by
  show (w >>> 16) &&& (2 ^ 8 - 1) = w / 2 ^ 16 % 2 ^ 8
  rw [Nat.and_pow_two_sub_one_eq_mod, Nat.shiftRight_eq_div_pow]

/-- An id that occurs in no remaining snapshot entry is untouched by the
rest of the rebuild loop. -/
theorem UpdateStreamMapFrom_notMem (rdsEnabled : Bool) (old : StreamMap)
    (props : List PVRStream) (acc : StreamMap) (t : Nat) (id : Int)
    (h : id ∉ props.map fun s => s.iPID) :
    (UpdateStreamMapFrom rdsEnabled old props acc t).1 id = acc id := by
  induction props generalizing acc t with
  | nil => rfl
  | cons a rest ih =>
      simp only [List.map_cons, List.mem_cons, not_or] at h
      simp only [UpdateStreamMapFrom]
      rw [ih _ _ h.2]
      simp [mapInsert, h.1]

/-- For an entry of a snapshot with pairwise distinct PIDs, the rebuilt
map holds exactly the descriptor produced by the rebuild iteration on
that entry (at some value of the allocation counter). -/
theorem UpdateStreamMapFrom_mem (rdsEnabled : Bool) (old : StreamMap)
    (props : List PVRStream) (acc : StreamMap) (t : Nat) (e : PVRStream)
    (hnd : (props.map fun s => s.iPID).Nodup) (he : e ∈ props) :
    ∃ t2, (UpdateStreamMapFrom rdsEnabled old props acc t).1 e.iPID =
      some (UpdateStreamEntry rdsEnabled old t2 e).1 := by
  induction props generalizing acc t with
  | nil => cases he
  | cons a rest ih =>
      simp only [List.map_cons, List.nodup_cons] at hnd
      rcases List.mem_cons.mp he with h | h
      · subst h
        refine ⟨t, ?_⟩
        simp only [UpdateStreamMapFrom]
        rw [UpdateStreamMapFrom_notMem _ _ _ _ _ _ hnd.1]
        simp [mapInsert]
      · simp only [UpdateStreamMapFrom]
        exact ih _ _ hnd.2 h

/-- `UpdateStreamMapFrom_mem`, stated for the full rebuild. -/
theorem UpdateStreamMap_mem (rdsEnabled : Bool) (old : StreamMap)
    (props : List PVRStream) (t : Nat) (e : PVRStream)
    (hnd : (props.map fun s => s.iPID).Nodup) (he : e ∈ props) :
    ∃ t2, (UpdateStreamMap rdsEnabled props old t).1 e.iPID =
      some (UpdateStreamEntry rdsEnabled old t2 e).1 :=
  UpdateStreamMapFrom_mem rdsEnabled old props (fun _ => none) t e hnd he

/-- Every descriptor held by the loop-built map under a key has that key
as its unique id, provided the accumulator already satisfied this. -/
theorem UpdateStreamMapFrom_uniqueId (rdsEnabled : Bool) (old : StreamMap)
    (props : List PVRStream) (acc : StreamMap) (t : Nat) (id : Int) (d : DemuxStream)
    (hacc : ∀ i x, acc i = some x → x.uniqueId = i)
    (h : (UpdateStreamMapFrom rdsEnabled old props acc t).1 id = some d) :
    d.uniqueId = id := by
  induction props generalizing acc t with
  | nil => exact hacc id d h
  | cons a rest ih =>
      simp only [UpdateStreamMapFrom] at h
      refine ih _ _ ?_ h
      intro i x hx
      by_cases hip : i = a.iPID
      · subst hip
        simp only [mapInsert, if_pos rfl] at hx
        rw [← Option.some.inj hx]
        exact UpdateStreamEntry_uniqueId rdsEnabled old t a
      · simp only [mapInsert, if_neg hip] at hx
        exact hacc i x hx

/-- Claim C4: for every call to `Read`, a backend return of exactly 0
sets eof to true; a return greater than 0 is passed through with eof
left unchanged (in particular unchanged at false); a return strictly
less than -1 is normalized to exactly -1; a return of exactly -1 is
passed through unchanged with eof unchanged. -/
theorem Read_normalization (r : Int) (e : Bool) :
    (r = 0 → (Read r e).2 = true) ∧
    (r > 0 → (Read r e).1 = r ∧ (Read r e).2 = e) ∧
    (r < -1 → (Read r e).1 = -1) ∧
    (r = -1 → (Read r e).1 = -1 ∧ (Read r e).2 = e) := by
  refine ⟨fun h => ?_, fun h => ?_, fun h => ?_, fun h => ?_⟩
  · simp [Read, h]
  · have h0 : r ≠ 0 := by omega
    have h1 : ¬ r < -1 := by omega
    simp [Read, h0, h1]
  · have h0 : r ≠ 0 := by omega
    simp [Read, h0, h]
  · subst h
    norm_num [Read]

/-- Witness for C4 at concrete inputs: a zero read sets eof, a read of
-7 is normalized to -1. -/
theorem Read_normalization_witness :
    (Read 0 false).2 = true ∧ (Read (-7) false).1 = -1 :=
  ⟨(Read_normalization 0 false).1 rfl,
   (Read_normalization (-7) false).2.2.1 (by norm_num)⟩

/-- Claim C5: for every call to `Seek`, the capability-probe mode never
invokes the backend seek and returns 1 iff `CanSeek` holds (else 0);
and a performed seek returning a non-negative value always clears eof,
even if eof was previously true. -/
theorem Seek_probe_and_eof (canSeek : Bool) (backendSeek : Int → Int → Int)
    (e : Bool) (offset whence : Int) :
    (whence = DVDSTREAM_SEEK_POSSIBLE →
      (Seek canSeek backendSeek e offset whence).invokedBackendSeek = false ∧
      (Seek canSeek backendSeek e offset whence).ret = (if canSeek then 1 else 0) ∧
      ((Seek canSeek backendSeek e offset whence).ret = 1 ↔ canSeek = true)) ∧
    (whence ≠ DVDSTREAM_SEEK_POSSIBLE →
      (Seek canSeek backendSeek e offset whence).ret ≥ 0 →
      (Seek canSeek backendSeek e offset whence).eof = false) := by
  constructor
  · intro h
    refine ⟨by simp [Seek, h], by simp [Seek, h], ?_⟩
    cases canSeek <;> simp [Seek, h]
  · intro h hret
    simp only [Seek, if_neg h] at hret ⊢
    simp only [ge_iff_le] at hret
    simp [hret]

/-- Witness for C5 at concrete inputs: probing with `whence = 16` on a
seekable stream answers 1 without touching the backend; a real seek
returning 0 clears a previously set eof. -/
theorem Seek_probe_and_eof_witness :
    ((Seek true (fun _ _ => 5) true 0 16).invokedBackendSeek = false ∧
      (Seek true (fun _ _ => 5) true 0 16).ret = (if true then 1 else 0) ∧
      ((Seek true (fun _ _ => 5) true 0 16).ret = 1 ↔ true = true)) ∧
    (Seek true (fun _ _ => 0) true 7 0).eof = false :=
  ⟨(Seek_probe_and_eof true (fun _ _ => 5) true 0 16).1 rfl,
   (Seek_probe_and_eof true (fun _ _ => 0) true 7 0).2 (by decide) (by decide)⟩

/-- Claim C1 counterexample: a generic-category entry (id 3) present in
two consecutive identical snapshots does not keep its descriptor
instance — the second rebuild stores a freshly constructed descriptor
(tag 1) instead of the first rebuild's instance (tag 0), because the
generic fallback branch of the dispatch never reuses. -/
theorem C1_generic_not_reused_cex :
    subtypeFor false ({ iPID := 3 } : PVRStream) = StreamSubtype.generic ∧
    ((UpdateStreamMap false [({ iPID := 3 } : PVRStream)] (fun _ => none) 0).1 3).map
        (fun d => d.tag) = some 0 ∧
    ((UpdateStreamMap false [({ iPID := 3 } : PVRStream)]
        (UpdateStreamMap false [({ iPID := 3 } : PVRStream)] (fun _ => none) 0).1
        (UpdateStreamMap false [({ iPID := 3 } : PVRStream)] (fun _ => none) 0).2).1 3).map
        (fun d => d.tag) = some 1 ∧
    ((UpdateStreamMap false [({ iPID := 3 } : PVRStream)]
        (UpdateStreamMap false [({ iPID := 3 } : PVRStream)] (fun _ => none) 0).1
        (UpdateStreamMap false [({ iPID := 3 } : PVRStream)] (fun _ => none) 0).2).1 3).map
        (fun d => d.tag) ≠
      ((UpdateStreamMap false [({ iPID := 3 } : PVRStream)] (fun _ => none) 0).1 3).map
        (fun d => d.tag) := by
  decide

/-- Claim C1 (amended): for every two consecutive rebuilds, if an id is
present in both driving snapshots (each with pairwise distinct PIDs),
its dispatch-determined descriptor subtype is unchanged, and that
subtype is one of the dedicated subtypes — not the generic fallback,
which always reconstructs — then after the second rebuild the map holds
the very same descriptor instance (same tag, mutated in place) for that
id. -/
theorem UpdateStreamMap_identity_preserved (flag1 flag2 : Bool)
    (s1 s2 : List PVRStream) (m0 : StreamMap) (t0 t1 : Nat) (e1 e2 : PVRStream)
    (hnd1 : (s1.map fun s => s.iPID).Nodup) (hnd2 : (s2.map fun s => s.iPID).Nodup)
    (h1 : e1 ∈ s1) (h2 : e2 ∈ s2) (hpid : e1.iPID = e2.iPID)
    (hsub : subtypeFor flag1 e1 = subtypeFor flag2 e2)
    (hng : subtypeFor flag2 e2 ≠ StreamSubtype.generic) :
    ∃ d1 d2,
      (UpdateStreamMap flag1 s1 m0 t0).1 e1.iPID = some d1 ∧
      (UpdateStreamMap flag2 s2 (UpdateStreamMap flag1 s1 m0 t0).1 t1).1 e2.iPID = some d2 ∧
      d2.tag = d1.tag := by
  obtain ⟨ta, hm1⟩ := UpdateStreamMap_mem flag1 m0 s1 t0 e1 hnd1 h1
  obtain ⟨tb, hm2⟩ :=
    UpdateStreamMap_mem flag2 (UpdateStreamMap flag1 s1 m0 t0).1 s2 t1 e2 hnd2 h2
  refine ⟨_, _, hm1, hm2, ?_⟩
  apply UpdateStreamEntry_tag_reuse
  · rw [← hpid]
    exact hm1
  · rw [UpdateStreamEntry_subtype]
    exact hsub
  · exact hng

/-- Witness for amended C1: an audio entry (id 5) occurring in two
consecutive snapshots keeps its descriptor instance across the second
rebuild. -/
theorem UpdateStreamMap_identity_preserved_witness :
    ∃ d1 d2,
      (UpdateStreamMap false [({ iPID := 5, iCodecType := CodecType.audio } : PVRStream)]
          (fun _ => none) 0).1 5 = some d1 ∧
      (UpdateStreamMap false [({ iPID := 5, iCodecType := CodecType.audio } : PVRStream)]
          (UpdateStreamMap false
            [({ iPID := 5, iCodecType := CodecType.audio } : PVRStream)]
            (fun _ => none) 0).1 9).1 5 = some d2 ∧
      d2.tag = d1.tag :=
  UpdateStreamMap_identity_preserved false false
    [({ iPID := 5, iCodecType := CodecType.audio } : PVRStream)]
    [({ iPID := 5, iCodecType := CodecType.audio } : PVRStream)]
    (fun _ => none) 0 9
    ({ iPID := 5, iCodecType := CodecType.audio } : PVRStream)
    ({ iPID := 5, iCodecType := CodecType.audio } : PVRStream)
    (by decide) (by decide) (by simp) (by simp) rfl rfl (by decide)

/-- Claim C2 counterexample: first, a subtitle-category entry (id 7)
whose codec id is the DVB-teletext codec id and whose info word is
nonzero is dispatched to the teletext subtype with no extra-data, not to
a subtitle descriptor with the 4-byte block; second, a subtitle entry
(id 9) whose info word was nonzero in the previous snapshot and is 0 in
the driving one keeps the stale 4-byte block on its reused descriptor,
so extra-data is present although the word is 0. -/
theorem C2_subtitle_cex :
    (((UpdateStreamMap true
          [({ iPID := 7, iCodecType := CodecType.subtitle,
              iCodecId := AV_CODEC_ID_DVB_TELETEXT,
              iSubtitleInfo := 0x12345678 } : PVRStream)]
          (fun _ => none) 0).1 7).map (fun d => d.subtype) =
        some StreamSubtype.teletext) ∧
    (((UpdateStreamMap true
          [({ iPID := 7, iCodecType := CodecType.subtitle,
              iCodecId := AV_CODEC_ID_DVB_TELETEXT,
              iSubtitleInfo := 0x12345678 } : PVRStream)]
          (fun _ => none) 0).1 7).map (fun d => d.extraData) = some none) ∧
    (((UpdateStreamMap true
          [({ iPID := 9, iCodecType := CodecType.subtitle,
              iSubtitleInfo := 0 } : PVRStream)]
          (UpdateStreamMap true
            [({ iPID := 9, iCodecType := CodecType.subtitle,
                iSubtitleInfo := 0x12345678 } : PVRStream)]
            (fun _ => none) 0).1
          (UpdateStreamMap true
            [({ iPID := 9, iCodecType := CodecType.subtitle,
                iSubtitleInfo := 0x12345678 } : PVRStream)]
            (fun _ => none) 0).2).1 9).map (fun d => d.extraData) =
        some (some [0x56, 0x78, 0x12, 0x34])) := by
  decide

/-- Claim C2 (amended): for every snapshot entry of subtitle category
whose codec id is not the DVB-teletext codec id (snapshot PIDs pairwise
distinct), the rebuild stores a subtitle-subtype descriptor under its
id; when the packed 32-bit info word is nonzero its extra-data is
exactly 4 bytes [bits 15-8, bits 7-0, bits 31-24, bits 23-16] of the
word; when the word is 0 the rebuild attaches no block, leaving the
extra-data of the chosen base descriptor — none for a freshly
constructed one, the previous block for a reused subtitle descriptor. -/
theorem UpdateStreamMap_subtitle_extraData (rdsEnabled : Bool) (old : StreamMap)
    (props : List PVRStream) (t : Nat) (e : PVRStream)
    (hnd : (props.map fun s => s.iPID).Nodup) (he : e ∈ props)
    (hc : e.iCodecType = CodecType.subtitle)
    (hnt : e.iCodecId ≠ AV_CODEC_ID_DVB_TELETEXT) :
    ∃ d, (UpdateStreamMap rdsEnabled props old t).1 e.iPID = some d ∧
      d.subtype = StreamSubtype.subtitle ∧
      (e.iSubtitleInfo ≠ 0 →
        d.extraData = some [e.iSubtitleInfo / 2 ^ 8 % 2 ^ 8, e.iSubtitleInfo % 2 ^ 8,
          e.iSubtitleInfo / 2 ^ 24 % 2 ^ 8, e.iSubtitleInfo / 2 ^ 16 % 2 ^ 8]) ∧
      (e.iSubtitleInfo = 0 →
        d.extraData = (match old e.iPID with
          | some o => if o.subtype = StreamSubtype.subtitle then o.extraData else none
          | none => none)) := by
  obtain ⟨t2, hm⟩ := UpdateStreamMap_mem rdsEnabled old props t e hnd he
  refine ⟨_, hm, ?_, ?_, ?_⟩
  · rw [UpdateStreamEntry_subtype]
    simp [subtypeFor, hc, hnt]
  · intro hi
    rw [UpdateStreamEntry_subtitle_extra rdsEnabled old t2 e hc hnt]
    simp [hi, subByte0_eq_mod, subByte1_eq_mod, subByte2_eq_mod, subByte3_eq_mod]
  · intro hi
    rw [UpdateStreamEntry_subtitle_extra rdsEnabled old t2 e hc hnt]
    simp [hi]

/-- Witness for amended C2: a fresh subtitle entry (id 9) with info word
0x12345678 gets a subtitle descriptor carrying the decoded 4-byte
block. -/
theorem UpdateStreamMap_subtitle_extraData_witness :
    ∃ d, (UpdateStreamMap true
        [({ iPID := 9, iCodecType := CodecType.subtitle,
            iSubtitleInfo := 0x12345678 } : PVRStream)]
        (fun _ => none) 0).1 9 = some d ∧
      d.subtype = StreamSubtype.subtitle ∧
      d.extraData = some [0x56, 0x78, 0x12, 0x34] := by
  obtain ⟨d, hm, hsub, hnz, _⟩ :=
    UpdateStreamMap_subtitle_extraData true (fun _ => none)
      [({ iPID := 9, iCodecType := CodecType.subtitle,
          iSubtitleInfo := 0x12345678 } : PVRStream)] 0
      ({ iPID := 9, iCodecType := CodecType.subtitle,
          iSubtitleInfo := 0x12345678 } : PVRStream)
      (by decide) (by simp) rfl (by decide)
  refine ⟨d, hm, hsub, ?_⟩
  rw [hnz (by decide)]
  decide

/-- Claim C3 counterexample: rebuilding a subtitle entry (id 5) with
info word 0x12345678 yields extra-data [0x56, 0x78, 0x12, 0x34], not
the [0x34, 0x78, 0x12, 0x56] the claim states — the claimed fixture has
its first and last bytes swapped relative to the code's layout. -/
theorem C3_fixture_cex :
    (((UpdateStreamMap false
          [({ iPID := 5, iCodecType := CodecType.subtitle,
              iSubtitleInfo := 0x12345678 } : PVRStream)]
          (fun _ => none) 0).1 5).map (fun d => d.extraData) =
        some (some [0x56, 0x78, 0x12, 0x34])) ∧
    ¬ (((UpdateStreamMap false
          [({ iPID := 5, iCodecType := CodecType.subtitle,
              iSubtitleInfo := 0x12345678 } : PVRStream)]
          (fun _ => none) 0).1 5).map (fun d => d.extraData) =
        some (some [0x34, 0x78, 0x12, 0x56])) := by
  decide

/-- Claim C3 (amended): decoding the subtitle-info word 0x12345678
during a rebuild yields the extra-data byte sequence
[0x56, 0x78, 0x12, 0x34]. -/
theorem C3_fixture_amended :
    ((UpdateStreamMap false
        [({ iPID := 5, iCodecType := CodecType.subtitle,
            iSubtitleInfo := 0x12345678 } : PVRStream)]
        (fun _ => none) 0).1 5).map (fun d => d.extraData) =
      some (some [0x56, 0x78, 0x12, 0x34]) := by
  decide

/-- Claim C6: for every packet returned by `ReadDemux`: a packet with
the stream-info sentinel id re-queries the snapshot, leaves the stream
map (and tag counter) unchanged, and is still returned; a packet with
the stream-change sentinel id re-queries the snapshot, rebuilds the map,
and is still returned; a packet with any other id is returned with no
side effect; a null packet is returned as null with no side effect. -/
theorem ReadDemux_sentinels (c : PVRClient) (rdsEnabled : Bool) (st : BridgeState) :
    (c.demuxPacket = none → ReadDemux (some c) rdsEnabled st = (none, st)) ∧
    (∀ p, c.demuxPacket = some p → p.iStreamId = DMX_SPECIALID_STREAMINFO →
      (ReadDemux (some c) rdsEnabled st).1 = some p ∧
      (ReadDemux (some c) rdsEnabled st).2.props = c.streamProps ∧
      (ReadDemux (some c) rdsEnabled st).2.streamMap = st.streamMap ∧
      (ReadDemux (some c) rdsEnabled st).2.nextTag = st.nextTag) ∧
    (∀ p, c.demuxPacket = some p → p.iStreamId = DMX_SPECIALID_STREAMCHANGE →
      (ReadDemux (some c) rdsEnabled st).1 = some p ∧
      (ReadDemux (some c) rdsEnabled st).2.props = c.streamProps ∧
      (ReadDemux (some c) rdsEnabled st).2.streamMap =
        (UpdateStreamMap rdsEnabled c.streamProps st.streamMap st.nextTag).1) ∧
    (∀ p, c.demuxPacket = some p → p.iStreamId ≠ DMX_SPECIALID_STREAMINFO →
      p.iStreamId ≠ DMX_SPECIALID_STREAMCHANGE →
      ReadDemux (some c) rdsEnabled st = (some p, st)) := by
  refine ⟨fun h => ?_, fun p hp hid => ?_, fun p hp hid => ?_, fun p hp hi1 hi2 => ?_⟩
  · simp [ReadDemux, h]
  · refine ⟨?_, ?_, ?_, ?_⟩ <;> simp [ReadDemux, hp, hid]
  · refine ⟨?_, ?_, ?_⟩ <;>
      simp [ReadDemux, hp, hid, DMX_SPECIALID_STREAMINFO, DMX_SPECIALID_STREAMCHANGE]
  · simp [ReadDemux, hp, hi1, hi2]

/-- Witness for C6: a stream-info packet on a concrete client refreshes
the snapshot, keeps the map, and is returned. -/
theorem ReadDemux_sentinels_witness :
    (ReadDemux (some { demuxPacket := some { iStreamId := -10 }, streamProps := [({ iPID := 1 } : PVRStream)] }) false {}).1 =
      some { iStreamId := -10 } ∧
    (ReadDemux (some { demuxPacket := some { iStreamId := -10 }, streamProps := [({ iPID := 1 } : PVRStream)] }) false {}).2.props =
      [({ iPID := 1 } : PVRStream)] ∧
    (ReadDemux (some { demuxPacket := some { iStreamId := -10 }, streamProps := [({ iPID := 1 } : PVRStream)] }) false {}).2.streamMap =
      ({} : BridgeState).streamMap ∧
    (ReadDemux (some { demuxPacket := some { iStreamId := -10 }, streamProps := [({ iPID := 1 } : PVRStream)] }) false {}).2.nextTag =
      ({} : BridgeState).nextTag :=
  (ReadDemux_sentinels { demuxPacket := some { iStreamId := -10 }, streamProps := [({ iPID := 1 } : PVRStream)] } false {}).2.1
    { iStreamId := -10 } rfl rfl

/-- Claim C7: every id present in the snapshot driving one rebuild but
absent from the snapshot driving the next rebuild is dropped: after the
second rebuild, `GetStream` answers null for it. -/
theorem GetStream_dropped (flag1 flag2 : Bool) (s1 s2 : List PVRStream)
    (m0 : StreamMap) (t0 : Nat) (id : Int)
    (_hin : id ∈ s1.map fun s => s.iPID) (hout : id ∉ s2.map fun s => s.iPID) :
    GetStream (UpdateStreamMap flag2 s2 (UpdateStreamMap flag1 s1 m0 t0).1
      (UpdateStreamMap flag1 s1 m0 t0).2).1 id = none := by
  unfold GetStream UpdateStreamMap
  rw [UpdateStreamMapFrom_notMem _ _ _ _ _ _ hout]

/-- Witness for C7: id 200 present in the first snapshot and absent from
the second is gone after the second rebuild. -/
theorem GetStream_dropped_witness :
    GetStream (UpdateStreamMap false [({ iPID := 300 } : PVRStream)]
      (UpdateStreamMap false [({ iPID := 200 } : PVRStream)] (fun _ => none) 0).1
      (UpdateStreamMap false [({ iPID := 200 } : PVRStream)] (fun _ => none) 0).2).1
      200 = none :=
  GetStream_dropped false false [({ iPID := 200 } : PVRStream)]
    [({ iPID := 300 } : PVRStream)] (fun _ => none) 0 200 (by decide) (by decide)

/-- Claim C8 counterexample: an RDS-category entry (id 4) whose codec id
is the DVB-teletext codec id is dispatched to the teletext subtype
regardless of the RDS-decoding flag — neither generic (flag disabled)
nor RDS (flag enabled) as the claim states. -/
theorem C8_rds_cex :
    (((UpdateStreamMap false
          [({ iPID := 4, iCodecType := CodecType.rds,
              iCodecId := AV_CODEC_ID_DVB_TELETEXT } : PVRStream)]
          (fun _ => none) 0).1 4).map (fun d => d.subtype) =
        some StreamSubtype.teletext) ∧
    (((UpdateStreamMap true
          [({ iPID := 4, iCodecType := CodecType.rds,
              iCodecId := AV_CODEC_ID_DVB_TELETEXT } : PVRStream)]
          (fun _ => none) 0).1 4).map (fun d => d.subtype) =
        some StreamSubtype.teletext) ∧
    some StreamSubtype.teletext ≠ some StreamSubtype.generic ∧
    some StreamSubtype.teletext ≠ some StreamSubtype.radioRDS := by
  decide

/-- Claim C8 (amended): for every snapshot entry of RDS category whose
codec id is not the DVB-teletext codec id (snapshot PIDs pairwise
distinct): with the RDS-decoding flag disabled the rebuild produces a
generic-subtype descriptor for it, with the flag enabled an RDS-subtype
one. -/
theorem UpdateStreamMap_rds_subtype (flag : Bool) (old : StreamMap)
    (props : List PVRStream) (t : Nat) (e : PVRStream)
    (hnd : (props.map fun s => s.iPID).Nodup) (he : e ∈ props)
    (hc : e.iCodecType = CodecType.rds) (hnt : e.iCodecId ≠ AV_CODEC_ID_DVB_TELETEXT) :
    ∃ d, (UpdateStreamMap flag props old t).1 e.iPID = some d ∧
      d.subtype = (if flag then StreamSubtype.radioRDS else StreamSubtype.generic) := by
  obtain ⟨t2, hm⟩ := UpdateStreamMap_mem flag old props t e hnd he
  refine ⟨_, hm, ?_⟩
  rw [UpdateStreamEntry_subtype]
  cases flag <;> simp [subtypeFor, hc, hnt]

/-- Witness for amended C8: a plain RDS entry (id 4) becomes generic
with the flag disabled and RDS with it enabled. -/
theorem UpdateStreamMap_rds_subtype_witness :
    (∃ d, (UpdateStreamMap false
        [({ iPID := 4, iCodecType := CodecType.rds } : PVRStream)]
        (fun _ => none) 0).1 4 = some d ∧
      d.subtype = (if false then StreamSubtype.radioRDS else StreamSubtype.generic)) ∧
    (∃ d, (UpdateStreamMap true
        [({ iPID := 4, iCodecType := CodecType.rds } : PVRStream)]
        (fun _ => none) 0).1 4 = some d ∧
      d.subtype = (if true then StreamSubtype.radioRDS else StreamSubtype.generic)) :=
  ⟨UpdateStreamMap_rds_subtype false (fun _ => none)
      [({ iPID := 4, iCodecType := CodecType.rds } : PVRStream)] 0
      ({ iPID := 4, iCodecType := CodecType.rds } : PVRStream)
      (by decide) (by simp) rfl (by decide),
   UpdateStreamMap_rds_subtype true (fun _ => none)
      [({ iPID := 4, iCodecType := CodecType.rds } : PVRStream)] 0
      ({ iPID := 4, iCodecType := CodecType.rds } : PVRStream)
      (by decide) (by simp) rfl (by decide)⟩

/-- Claim C9: with no backend client present, operations degrade to safe
defaults (modelled as total functions, they cannot throw):
`GetBlockSize` answers exactly -1, `SeekTime` false, `OpenDemux` false
with the state untouched, and `ReadDemux` a null packet. -/
theorem NoClient_defaults (timems : Int) (backwards rdsEnabled : Bool) (st : BridgeState) :
    GetBlockSize none = -1 ∧
    SeekTime none timems backwards = false ∧
    OpenDemux none rdsEnabled st = (false, st) ∧
    (ReadDemux none rdsEnabled st).1 = none :=
  ⟨rfl, rfl, rfl, rfl⟩

/-- Claim C10: after every rebuild, each descriptor held by the stream
map has the key it is stored under as its unique id, so `GetStream`
never answers a descriptor whose unique id differs from the queried
id. -/
theorem GetStream_uniqueId (rdsEnabled : Bool) (props : List PVRStream)
    (m0 : StreamMap) (t0 : Nat) (id : Int) (d : DemuxStream)
    (h : GetStream (UpdateStreamMap rdsEnabled props m0 t0).1 id = some d) :
    d.uniqueId = id := by
  unfold GetStream UpdateStreamMap at h
  exact UpdateStreamMapFrom_uniqueId rdsEnabled m0 props (fun _ => none) t0 id d
    (fun i x hx => Option.noConfusion hx) h

/-- Witness for C10: the audio descriptor stored under id 5 after a
concrete rebuild carries unique id 5. -/
theorem GetStream_uniqueId_witness :
    ({ tag := 0, subtype := StreamSubtype.audio, uniqueId := 5 } : DemuxStream).uniqueId =
      5 :=
  GetStream_uniqueId false [({ iPID := 5, iCodecType := CodecType.audio } : PVRStream)]
    (fun _ => none) 0 5
    ({ tag := 0, subtype := StreamSubtype.audio, uniqueId := 5 } : DemuxStream)
    (by decide)

end PVRBridge
